import Mathlib

/-!
Shallow embedding of the SSR rendering pipeline of the vanilla package:
server router (src/packages/vanilla/src/router/serverRouter.js), mock API
(src/packages/vanilla/src/mocks/mockApi.js), product store and reducer
(src/packages/vanilla/src/stores/productStore.js), the SSR entry point
(main-server.js) and the HTML template injection (server.js).

Strings are modelled as `String`/`List Char`; JS objects whose key sets are
statically known become structures; an absent key is `none`.  Host collaborators
(the `ko` locale collation used by `localeCompare`, `URLSearchParams` query
parsing, `Math.random`, and the presentational page components) are parameters
of the embedding, collected in `Env`.
-/

/-- JS `Array.prototype.slice(s, e)` with possibly negative bounds. -/
def jsSlice {α : Type} (l : List α) (s e : Int) : List α :=
  let n : Int := l.length
  let s2 : Int := if s < 0 then max (n + s) 0 else min s n
  let e2 : Int := if e < 0 then max (n + e) 0 else min e n
  (l.take e2.toNat).drop s2.toNat

/-- ECMAScript `GetSubstitution` restricted to a plain-string pattern (which
has no capture groups): in the replacement text, `$$` yields a dollar sign,
`$&` the matched text (the pattern itself), a dollar followed by a backquote
(code 96) the portion of the string before the match, and `$'` (dollar,
code 39) the portion after the match; a dollar followed by anything else —
including digit references, since there are no captures — stays literal. -/
def getSubstitution (matched before after : List Char) : List Char → List Char
  | [] => []
  | [c] => [c]
  | c :: d :: rest =>
    if c = '$' then
      if d = '$' then '$' :: getSubstitution matched before after rest
      else if d = '&' then matched ++ getSubstitution matched before after rest
      else if d = Char.ofNat 96 then before ++ getSubstitution matched before after rest
      else if d = Char.ofNat 39 then after ++ getSubstitution matched before after rest
      else '$' :: getSubstitution matched before after (d :: rest)
    else c :: getSubstitution matched before after (d :: rest)

/-- Splits a string at the leftmost occurrence of the pattern: the text
before the occurrence and the text after it, or `none` when the pattern does
not occur. -/
def splitFirst : List Char → List Char → Option (List Char × List Char)
  | [], pat => if pat = [] then some ([], []) else none
  | c :: cs, pat =>
    if pat.isPrefixOf (c :: cs) then some ([], (c :: cs).drop pat.length)
    else
      match splitFirst cs pat with
      | some (pre, post) => some (c :: pre, post)
      | none => none

/-- JS `String.prototype.replace` with a plain-string pattern: replaces the
leftmost occurrence only, expanding the dollar patterns of the replacement
text through `GetSubstitution`; the input is returned unchanged when the
pattern does not occur. -/
def replaceFirst (l pat rep : List Char) : List Char :=
  match splitFirst l pat with
  | none => l
  | some (pre, post) => pre ++ getSubstitution pat pre post rep ++ post

/-- `replaceFirst` lifted to `String`. -/
def replaceFirstS (s pat rep : String) : String :=
  ⟨replaceFirst s.data pat.data rep.data⟩

/-- The character is not a slash (the `[^/]` class of the compiled route regex). -/
def notSlash (c : Char) : Bool := !(c == '/')

/-- The character is not a question mark (query-string separator). -/
def notQuestion (c : Char) : Bool := !(c == '?')

/-- `url.split("?")[0]`: the characters before the first question mark. -/
def stripQuery (l : List Char) : List Char := l.takeWhile notQuestion

/-- JS `\w` (ASCII word character), used by the `:\w+` placeholder scan. -/
def isWordChar (c : Char) : Bool := c.isAlpha || c.isDigit || c == '_'

/-- Splits off the maximal leading run of word characters. -/
def takeWordRun : List Char → List Char × List Char
  | [] => ([], [])
  | c :: cs =>
    if isWordChar c then
      let p := takeWordRun cs
      (c :: p.1, p.2)
    else ([], c :: cs)

/-- One token of a compiled route pattern: a literal character, or a named
`([^/]+)` capture produced from a `:name` placeholder. -/
inductive Tok : Type
  | lit (c : Char)
  | param (name : String)
deriving DecidableEq, Repr

/-- Fuelled scan of a route pattern string: each `:` followed by at least one
word character becomes a `param` token for the maximal word run (mirroring
`path.replace(/:\w+/g, "([^/]+)")`), every other character is a literal.
The model assumes the pattern contains no further regex metacharacters,
which holds for the registered routes `"/"` and `"/product/:id/"`. -/
def parsePatternF : Nat → List Char → List Tok
  | 0, _ => []
  | _ + 1, [] => []
  | f + 1, ':' :: cs =>
    match takeWordRun cs with
    | ([], _) => Tok.lit ':' :: parsePatternF f cs
    | (c :: r, rest) => Tok.param ⟨c :: r⟩ :: parsePatternF f rest
  | f + 1, c :: cs => Tok.lit c :: parsePatternF f cs

/-- Compiles a route pattern string to its token list. -/
def parsePattern (l : List Char) : List Tok := parsePatternF l.length l

/-- The descending list `[k, k-1, ..., 1]` of capture lengths a greedy
`([^/]+)` group attempts, longest first. -/
def descLens : Nat → List Nat
  | 0 => []
  | k + 1 => (k + 1) :: descLens k

/-- Fuelled anchored matcher for a compiled pattern: literals must coincide,
a `param` token greedily captures the longest non-empty run of non-slash
characters that lets the remaining tokens match (backtracking shorter runs),
and the whole input must be consumed.  Returns the captured strings in group
order.  The fuel only bounds the token-consumption depth; `toks.length + 1`
is always sufficient. -/
def matchToksF : Nat → List Tok → List Char → Option (List String)
  | 0, _, _ => none
  | _ + 1, [], cs => if cs.isEmpty then some [] else none
  | f + 1, Tok.lit c :: rest, cs =>
    match cs with
    | [] => none
    | d :: cs2 => if c = d then matchToksF f rest cs2 else none
  | f + 1, Tok.param _ :: rest, cs =>
    (descLens ((cs.takeWhile notSlash).length)).findSome? fun len =>
      (matchToksF f rest (cs.drop len)).map fun ps => (⟨cs.take len⟩ : String) :: ps

/-- Anchored match of a compiled pattern against a pathname. -/
def matchToks (toks : List Tok) (cs : List Char) : Option (List String) :=
  matchToksF (toks.length + 1) toks cs

/-- One registered route: compiled matcher, declared parameter names in
declaration order, and the page handler. -/
structure RouteEntry (H : Type) : Type where
  toks : List Tok
  paramNames : List String
  handler : H
deriving DecidableEq

/-- The server-side router: normalized base URL and the registration-ordered
route map (`Map` iteration order is insertion order). -/
structure ServerRouter (H : Type) : Type where
  baseUrl : List Char
  routes : List (String × RouteEntry H)
deriving DecidableEq

/-- `baseUrl.replace(/\/$/, "")`: drops one trailing slash. -/
def stripTrailingSlash (s : String) : List Char :=
  match s.data.getLast? with
  | some '/' => s.data.dropLast
  | _ => s.data

/-- `new ServerRouter(baseUrl)`. -/
def ServerRouter.new (H : Type) (baseUrl : String) : ServerRouter H :=
  ⟨stripTrailingSlash baseUrl, []⟩

/-- JS `Map.prototype.set`: replaces in place when the key exists, otherwise
appends, preserving insertion order. -/
def mapSet {β : Type} (m : List (String × β)) (k : String) (v : β) : List (String × β) :=
  if m.any (fun kv => kv.1 = k) then
    m.map (fun kv => if kv.1 = k then (k, v) else kv)
  else m ++ [(k, v)]

/-- `ServerRouter.addRoute(path, handler)`: compiles the pattern (prefixed by
the base URL as literals, anchored at both ends) and records the parameter
names in declaration order. -/
def ServerRouter.addRoute {H : Type} (r : ServerRouter H) (path : String) (handler : H) :
    ServerRouter H :=
  let toks := parsePattern path.data
  let names := toks.filterMap fun t =>
    match t with
    | Tok.param n => some n
    | _ => none
  { r with routes := mapSet r.routes path ⟨r.baseUrl.map Tok.lit ++ toks, names, handler⟩ }

/-- The value returned by a successful `ServerRouter.match`: the spread of the
stored route (`regex` modelled by `toks`) together with the bound parameters
and the matched pattern string. -/
structure MatchResult (H : Type) : Type where
  toks : List Tok
  paramNames : List String
  handler : H
  params : List (String × String)
  path : String
deriving DecidableEq

/-- Tests the pathname against the registered routes in registration order,
binding captures to declared names positionally on the first success. -/
def matchRoutes {H : Type} : List (String × RouteEntry H) → List Char → Option (MatchResult H)
  | [], _ => none
  | (p, e) :: rest, path =>
    match matchToks e.toks path with
    | some caps => some ⟨e.toks, e.paramNames, e.handler, e.paramNames.zip caps, p⟩
    | none => matchRoutes rest path

/-- `ServerRouter.match(url)`: strips the query string, then returns the first
matching route or the not-found sentinel `none`. -/
def ServerRouter.match {H : Type} (r : ServerRouter H) (url : String) : Option (MatchResult H) :=
  matchRoutes r.routes (stripQuery url.data)

/-- One entry of the product catalog `items.json`, restricted to the fields the
pipeline consumes.  The source keeps `lprice` as a decimal string parsed with
`parseInt` at every comparison; it is modelled by its integer value. -/
structure Item : Type where
  productId : String
  title : String
  brand : String
  lprice : Int
  image : String
  category1 : String
  category2 : String
deriving DecidableEq, Repr

/-- The three `Math.random()` draws of `mockGetProduct`, supplied as
nondeterministic inputs (`Math.floor(Math.random() * n)` becomes `_ % n`). -/
structure RandDraws : Type where
  rating : Nat
  reviewCount : Nat
  stock : Nat

/-- A product as returned by `mockGetProduct`: the catalog entry spread
together with the derived display fields. -/
structure EnrichedProduct : Type where
  base : Item
  description : String
  rating : Nat
  reviewCount : Nat
  stock : Nat
  images : List String
deriving DecidableEq

/-- Builds the enriched detail object of `mockGetProduct` from a found item. -/
def enrichProduct (r : RandDraws) (p : Item) : EnrichedProduct where
  base := p
  description :=
    p.title ++ "에 대한 상세 설명입니다. " ++ p.brand ++
      " 브랜드의 우수한 품질을 자랑하는 상품으로, 고객 만족도가 높은 제품입니다."
  rating := r.rating % 2 + 4
  reviewCount := r.reviewCount % 1000 + 50
  stock := r.stock % 100 + 10
  images := [p.image, replaceFirstS p.image ".jpg" "_2.jpg", replaceFirstS p.image ".jpg" "_3.jpg"]

/-- `mockGetProduct(id)`: finds the item whose `productId` strictly equals the
(possibly undefined) id and enriches it; `none` models the source's `null`. -/
def mockGetProduct (r : RandDraws) (items : List Item) (idOpt : Option String) :
    Option EnrichedProduct :=
  (items.find? fun it => some it.productId = idOpt).map (enrichProduct r)

/-- The options object passed to `mockGetProducts`; `none` is an absent or
`undefined` key, triggering the destructuring default. -/
structure ProductsOpts : Type where
  page : Option Int
  limit : Option Nat
  search : Option String
  category1 : Option String
  category2 : Option String
  sortKey : Option String

/-- The empty options object (`mockGetProducts()`), every default applies. -/
def ProductsOpts.noOpts : ProductsOpts := ⟨none, none, none, none, none, none⟩

/-- Stable insertion of `a` after every already-placed element `b` with
`le b a`; later elements therefore stay after earlier equal ones. -/
def insertStable {α : Type} (le : α → α → Bool) (a : α) : List α → List α
  | [] => [a]
  | b :: l => if le b a then b :: insertStable le a l else a :: b :: l

/-- Stable sort by a boolean comparison, modelling JS `Array.prototype.sort`
with comparator `c` via `le x y := c(x, y) ≤ 0`: for a consistent comparator
both produce the unique stable ascending reordering. -/
def jsSortStable {α : Type} (le : α → α → Bool) (l : List α) : List α :=
  l.foldl (fun acc a => insertStable le a acc) []

/-- Lower-cases every character (`String.prototype.toLowerCase`, ASCII part). -/
def toLowerStr (s : String) : String := ⟨s.data.map Char.toLower⟩

/-- `hay.includes(needle)`: contiguous-substring test. -/
def strIncludes (hay needle : String) : Bool := decide (needle.data <:+: hay.data)

/-- `filterProducts(products, query)`: search filter on title/brand
(case-insensitive substring), exact category filters, then the sort switch.
The `ko`-locale collation of `localeCompare` is the parameter `kc`
(negative-or-zero meaning "not after").  An empty sort key is falsy in the
source, so no sort runs at all in that case. -/
def filterProducts (kc : String → String → Int) (products : List Item)
    (search category1 category2 sortKey : String) : List Item :=
  let f1 :=
    if search ≠ "" then
      let term := toLowerStr search
      products.filter fun it =>
        strIncludes (toLowerStr it.title) term || strIncludes (toLowerStr it.brand) term
    else products
  let f2 := if category1 ≠ "" then f1.filter (fun it => it.category1 = category1) else f1
  let f3 := if category2 ≠ "" then f2.filter (fun it => it.category2 = category2) else f2
  if sortKey ≠ "" then
    if sortKey = "price_asc" then jsSortStable (fun a b => a.lprice ≤ b.lprice) f3
    else if sortKey = "price_desc" then jsSortStable (fun a b => b.lprice ≤ a.lprice) f3
    else if sortKey = "name_asc" then jsSortStable (fun a b => kc a.title b.title ≤ 0) f3
    else if sortKey = "name_desc" then jsSortStable (fun a b => kc b.title a.title ≤ 0) f3
    else jsSortStable (fun a b => a.lprice ≤ b.lprice) f3
  else f3

/-- The `pagination` object of a `mockGetProducts` result. -/
structure Pagination : Type where
  total : Nat
  totalPages : Nat
  currentPage : Int
  limit : Nat
deriving DecidableEq

/-- The `filters` echo object of a `mockGetProducts` result. -/
structure Filters : Type where
  search : String
  category1 : String
  category2 : String
  sortKey : String
deriving DecidableEq

/-- The full `mockGetProducts` result. -/
structure ProductsResult : Type where
  products : List Item
  pagination : Pagination
  filters : Filters
deriving DecidableEq

/-- `mockGetProducts(options)`: filter, sort, then paginate with
`totalPages = ceil(total / limit)`, `currentPage = min(max(page, 1), totalPages)`
and a JS `slice`.  (`limit = 0`, which yields an infinite page count in JS, is
outside the model; every call site uses a positive limit.) -/
def mockGetProducts (kc : String → String → Int) (items : List Item) (o : ProductsOpts) :
    ProductsResult :=
  let page : Int := o.page.getD 1
  let limit : Nat := o.limit.getD 20
  let search := o.search.getD ""
  let category1 := o.category1.getD ""
  let category2 := o.category2.getD ""
  let sortKey := o.sortKey.getD "price_asc"
  let filtered := filterProducts kc items search category1 category2 sortKey
  let total := filtered.length
  let totalPages := if limit = 0 then 0 else (total + limit - 1) / limit
  let currentPage : Int := min (max page 1) (totalPages : Int)
  let start : Int := (currentPage - 1) * (limit : Int)
  ⟨jsSlice filtered start (start + (limit : Int)),
   ⟨total, totalPages, currentPage, limit⟩,
   ⟨search, category1, category2, sortKey⟩⟩

/-- The category tree: first-level names in insertion order, each with its
second-level names in insertion order (leaves are empty objects). -/
abbrev Categories := List (String × List String)

/-- Adds `category2` under an existing `category1` entry if not yet present. -/
def setCat2 (cs : Categories) (c1 c2 : String) : Categories :=
  cs.map fun e => if e.1 = c1 then (e.1, if e.2.contains c2 then e.2 else e.2 ++ [c2]) else e

/-- Folds one item into the category tree (`mockGetCategories` loop body);
an empty `category2` is falsy and adds nothing at the second level. -/
def addItemCats (cs : Categories) (it : Item) : Categories :=
  let cs1 := if cs.any (fun e => e.1 = it.category1) then cs else cs ++ [(it.category1, [])]
  if it.category2 ≠ "" then setCat2 cs1 it.category1 it.category2 else cs1

/-- `mockGetCategories()`: the category tree extracted from the catalog. -/
def mockGetCategories (items : List Item) : Categories :=
  items.foldl addItemCats []

/-- The application state snapshot held by the product store.  The first eight
fields are the keys of `initialProductState`; the last five are the
SSR form-echo keys that only ever enter the snapshot through a `SETUP`
shallow merge, so `none` models their absence. -/
structure ProductState : Type where
  products : List Item
  totalCount : Nat
  currentProduct : Option EnrichedProduct
  relatedProducts : List Item
  loading : Bool
  error : Option String
  status : String
  categories : Categories
  searchQuery : Option String
  category1 : Option String
  category2 : Option String
  sortKey : Option String
  limit : Option Nat
deriving DecidableEq

/-- `initialProductState` of productStore.js. -/
def initialProductState : ProductState :=
  ⟨[], 0, none, [], true, none, "idle", [], none, none, none, none, none⟩

/-- A `SETUP` payload: a partial snapshot.  `none` means the key is absent
from the payload object (its current value survives the shallow merge);
for `currentProduct` and `error` a present key may itself carry `null`. -/
structure SetupPayload : Type where
  products : Option (List Item)
  totalCount : Option Nat
  currentProduct : Option (Option EnrichedProduct)
  relatedProducts : Option (List Item)
  loading : Option Bool
  error : Option (Option String)
  status : Option String
  categories : Option Categories
  searchQuery : Option String
  category1 : Option String
  category2 : Option String
  sortKey : Option String
  limit : Option Nat
deriving DecidableEq

/-- The empty `SETUP` payload (`{}`). -/
def SetupPayload.empty : SetupPayload :=
  ⟨none, none, none, none, none, none, none, none, none, none, none, none, none⟩

/-- Shallow object merge of two payloads, the second one's keys overriding
the first's (`{...p1, ...p2}`). -/
def SetupPayload.merge (p1 p2 : SetupPayload) : SetupPayload :=
  ⟨p2.products.or p1.products, p2.totalCount.or p1.totalCount,
   p2.currentProduct.or p1.currentProduct, p2.relatedProducts.or p1.relatedProducts,
   p2.loading.or p1.loading, p2.error.or p1.error, p2.status.or p1.status,
   p2.categories.or p1.categories, p2.searchQuery.or p1.searchQuery,
   p2.category1.or p1.category1, p2.category2.or p1.category2,
   p2.sortKey.or p1.sortKey, p2.limit.or p1.limit⟩

/-- `{...state, ...payload}`: the shallow merge of a payload over a snapshot. -/
def mergeSetup (s : ProductState) (p : SetupPayload) : ProductState :=
  ⟨p.products.getD s.products, p.totalCount.getD s.totalCount,
   p.currentProduct.getD s.currentProduct, p.relatedProducts.getD s.relatedProducts,
   p.loading.getD s.loading, p.error.getD s.error, p.status.getD s.status,
   p.categories.getD s.categories, p.searchQuery.or s.searchQuery,
   p.category1.or s.category1, p.category2.or s.category2,
   p.sortKey.or s.sortKey, p.limit.or s.limit⟩

/-- An action dispatched to the product reducer.  The nine handled kinds of
`PRODUCT_ACTIONS` are explicit; `resetFilters` is declared in `actionTypes`
but has no reducer case; `unknown` stands for any action type string other
than the declared ones. -/
inductive ProductAction : Type
  | setStatus (payload : String)
  | setCategories (payload : Categories)
  | setProducts (products : List Item) (totalCount : Nat)
  | addProducts (products : List Item) (totalCount : Nat)
  | setLoading (payload : Bool)
  | setError (payload : Option String)
  | setCurrentProduct (payload : Option EnrichedProduct)
  | setRelatedProducts (payload : List Item)
  | setup (payload : SetupPayload)
  | resetFilters
  | unknown (tag : String)

/-- The outcome of one reducer call, keeping track of JS object identity:
every non-default case builds a fresh object literal (`newObject`), while the
default case returns the very input reference (`sameObject`). -/
inductive ReducerOut : Type
  | sameObject
  | newObject (s : ProductState)
deriving DecidableEq

/-- `productReducer(state, action)` of productStore.js. -/
def productReducer (s : ProductState) : ProductAction → ReducerOut
  | .setStatus v => .newObject { s with status := v }
  | .setCategories v =>
    .newObject { s with categories := v, loading := false, error := none, status := "done" }
  | .setProducts ps tc =>
    .newObject { s with products := ps, totalCount := tc, loading := false, error := none,
                        status := "done" }
  | .addProducts ps tc =>
    .newObject { s with products := s.products ++ ps, totalCount := tc, loading := false,
                        error := none, status := "done" }
  | .setLoading v => .newObject { s with loading := v }
  | .setError v => .newObject { s with error := v, loading := false, status := "done" }
  | .setCurrentProduct v =>
    .newObject { s with currentProduct := v, loading := false, error := none, status := "done" }
  | .setRelatedProducts v => .newObject { s with relatedProducts := v, status := "done" }
  | .setup p => .newObject (mergeSetup s p)
  | .resetFilters => .sameObject
  | .unknown _ => .sameObject

/-- The snapshot value after one reducer call. -/
def reducedState (s : ProductState) (a : ProductAction) : ProductState :=
  match productReducer s a with
  | .sameObject => s
  | .newObject s2 => s2

/-- A store instance as built by `createStore(reducer, initialState)`: the
current snapshot plus a counter of subscriber notifications fired. -/
structure Store : Type where
  stateVal : ProductState
  notifications : Nat
deriving DecidableEq

/-- `dispatch(action)`: adopts the reducer result and notifies subscribers
exactly when the result is not reference-equal to the current snapshot;
a fresh object literal is never reference-equal to the input. -/
def Store.dispatch (st : Store) (a : ProductAction) : Store :=
  match productReducer st.stateVal a with
  | .sameObject => st
  | .newObject s2 => ⟨s2, st.notifications + 1⟩

/-- `createProductStore()`: a brand-new store seeded with the initial state. -/
def createProductStore : Store := ⟨initialProductState, 0⟩

/-- The documented snapshot invariant: the status is one of the three enum
values, and a non-null error forces the loading flag off. -/
def stateInvariant (s : ProductState) : Prop :=
  (s.status = "idle" ∨ s.status = "pending" ∨ s.status = "done") ∧
    (s.error ≠ none → s.loading = false)

/-- The side conditions under which one action preserves the snapshot
invariant: status payloads drawn from the enum, and no action may leave
loading on while the resulting error is non-null. -/
def actionSafe (s : ProductState) : ProductAction → Prop
  | .setStatus v => v = "idle" ∨ v = "pending" ∨ v = "done"
  | .setLoading b => b = true → s.error = none
  | .setup p =>
    (p.status.getD s.status = "idle" ∨ p.status.getD s.status = "pending" ∨
      p.status.getD s.status = "done") ∧
      (p.error.getD s.error ≠ none → p.loading.getD s.loading = false)
  | _ => True

instance (s : ProductState) : Decidable (stateInvariant s) :=
  decidable_of_iff
    ((s.status = "idle" ∨ s.status = "pending" ∨ s.status = "done") ∧
      (s.error ≠ none → s.loading = false)) Iff.rfl

instance (s : ProductState) (a : ProductAction) : Decidable (actionSafe s a) :=
  match a with
  | .setStatus v => decidable_of_iff (v = "idle" ∨ v = "pending" ∨ v = "done") Iff.rfl
  | .setCategories _ => .isTrue trivial
  | .setProducts _ _ => .isTrue trivial
  | .addProducts _ _ => .isTrue trivial
  | .setLoading b => decidable_of_iff (b = true → s.error = none) Iff.rfl
  | .setError _ => .isTrue trivial
  | .setCurrentProduct _ => .isTrue trivial
  | .setRelatedProducts _ => .isTrue trivial
  | .setup p =>
    decidable_of_iff
      ((p.status.getD s.status = "idle" ∨ p.status.getD s.status = "pending" ∨
        p.status.getD s.status = "done") ∧
        (p.error.getD s.error ≠ none → p.loading.getD s.loading = false)) Iff.rfl
  | .resetFilters => .isTrue trivial
  | .unknown _ => .isTrue trivial

/-- The page components the server router can dispatch to.  Their HTML output
is presentational and external to this design; an interpretation is supplied
through `Env.pageHtml`. -/
inductive PageHandler : Type
  | homePage
  | productDetailPage
  | notFoundPage
deriving DecidableEq, Repr

/-- The initial-data object returned by `prefetchData` (and echoed by
`render`): one constructor per distinct object literal in the source, each
carrying exactly the keys that literal has. -/
inductive InitialData : Type
  | home (products : List Item) (categories : Categories) (totalCount : Nat)
      (searchQuery category1 category2 sortKey : String) (limit : Nat)
  | notFound (error : String)
  | detail (currentProduct : EnrichedProduct) (relatedProducts : List Item)
  | empty
deriving DecidableEq

/-- The `currentProduct` key of an initial-data object, `none` when absent. -/
def InitialData.currentProductKey : InitialData → Option EnrichedProduct
  | .detail cp _ => some cp
  | _ => none

/-- The spread of an initial-data object into a `SETUP` payload. -/
def InitialData.toPayload : InitialData → SetupPayload
  | .home ps cats tc sq c1 c2 srt lim =>
    ⟨some ps, some tc, none, none, some false, none, none, some cats,
     some sq, some c1, some c2, some srt, some lim⟩
  | .notFound msg =>
    ⟨none, none, none, none, none, some (some msg), none, none, none, none, none, none, none⟩
  | .detail cp rel =>
    ⟨none, none, some (some cp), some rel, none, none, none, none, none, none, none, none, none⟩
  | .empty => SetupPayload.empty

/-- The host collaborators of the pipeline: the `Math.random` draws of
`mockGetProduct`, the `ko` collation of `localeCompare`, the
`URLSearchParams`-based `Router.parseQuery`, and the presentational page
components (which read the active store's state). -/
structure Env : Type where
  rand : RandDraws
  kc : String → String → Int
  parseQuery : String → List (String × String)
  pageHtml : PageHandler → ProductState → String

/-- JS `x || d` for a possibly-absent string: the default replaces both an
absent key and an empty (falsy) string. -/
def jsOrStr (o : Option String) (d : String) : String :=
  match o with
  | some s => if s = "" then d else s
  | none => d

/-- `Number(s)` restricted to canonical decimal strings (the only values the
pipeline feeds it); non-numeric input is outside the model. -/
def jsToNat (s : String) : Nat := s.toNat?.getD 0

/-- `prefetchData(path, params, query)` of main-server.js: route-specific
initial data.  The home route queries products with the echoed filters; the
detail route looks the product up by the bound `id` parameter, returns the
bare not-found error object when absent, and otherwise the product together
with the first default page of its `category1`, excluding itself. -/
def prefetchData (env : Env) (items : List Item) (path : String)
    (params query : List (String × String)) : InitialData :=
  if path = "/" then
    let res := mockGetProducts env.kc items
      ⟨none,
       (match query.lookup "limit" with
        | some s => if s = "" then none else some (jsToNat s)
        | none => none),
       query.lookup "search", query.lookup "category1", query.lookup "category2",
       query.lookup "sort"⟩
    .home res.products (mockGetCategories items) res.pagination.total
      (jsOrStr (query.lookup "search") "") (jsOrStr (query.lookup "category1") "")
      (jsOrStr (query.lookup "category2") "") (jsOrStr (query.lookup "sort") "price_asc")
      (match query.lookup "limit" with
       | some s => if s = "" then 20 else jsToNat s
       | none => 20)
  else if path = "/product/:id/" then
    let idOpt := params.lookup "id"
    match mockGetProduct env.rand items idOpt with
    | none => .notFound "상품을 찾을 수 없습니다"
    | some cp =>
      let res := mockGetProducts env.kc items
        { ProductsOpts.noOpts with category1 := some cp.base.category1 }
      .detail cp (res.products.filter fun p => ¬ some p.productId = idOpt)
  else .empty

/-- `createServerRouter()` of main-server.js: no base URL, the home route
registered first, the detail route second. -/
def createServerRouter : ServerRouter PageHandler :=
  ((ServerRouter.new PageHandler "").addRoute "/" .homePage).addRoute
    "/product/:id/" .productDetailPage

/-- The compiled matcher of the registered home route `"/"`. -/
def homeToks : List Tok := [Tok.lit '/']

/-- The compiled matcher of the registered detail route `"/product/:id/"`. -/
def detailToks : List Tok :=
  [Tok.lit '/', Tok.lit 'p', Tok.lit 'r', Tok.lit 'o', Tok.lit 'd', Tok.lit 'u',
   Tok.lit 'c', Tok.lit 't', Tok.lit '/', Tok.param "id", Tok.lit '/']

/-- `extractQueryString(url)`: the suffix from the first question mark on,
or the empty string. -/
def extractQueryString (url : String) : String :=
  match url.data.dropWhile notQuestion with
  | [] => ""
  | rest => ⟨rest⟩

/-- The process-wide SSR context: the active-store slot (`ssrContext`). -/
structure World : Type where
  ssrStore : Option Store

/-- The client-side singleton store (`productStore`). -/
def productStore : Store := ⟨initialProductState, 0⟩

/-- `getActiveStore()`: the request store when the SSR slot is set, otherwise
the client singleton. -/
def getActiveStore (w : World) : Store := w.ssrStore.getD productStore

/-- `generateTitle(matchedRoute, initialData)`: the product title on a detail
match carrying a truthy `currentProduct`, the default title otherwise. -/
def generateTitle (mr : Option (MatchResult PageHandler)) (d : InitialData) : String :=
  match mr with
  | some r =>
    if r.path = "/product/:id/" then
      match d.currentProductKey with
      | some cp => cp.base.title ++ " - 쇼핑몰"
      | none => "쇼핑몰 - 홈"
    else "쇼핑몰 - 홈"
  | none => "쇼핑몰 - 홈"

/-- The triple returned by `render(url)`. -/
structure RenderResult : Type where
  html : String
  head : String
  initialData : InitialData
deriving DecidableEq

/-- The body of `render(url)` (steps 2 through 8, the part inside `try`):
route matching, query parsing, prefetch, seeding the request store through a
`SETUP` dispatch, page rendering against the active store, and head
generation.  The world is returned with the slot still holding the (shared,
mutated) request store; none of the concrete steps throws, hence `.ok`. -/
def renderBody {ε : Type} (env : Env) (items : List Item) (url : String)
    (store : Store) (w : World) : Except ε RenderResult × World :=
  let matchedRoute := createServerRouter.match url
  let queryString := extractQueryString url
  let query := env.parseQuery queryString
  let initialData :=
    match matchedRoute with
    | some r => prefetchData env items r.path r.params query
    | none => .empty
  let store2 := store.dispatch (.setup initialData.toPayload)
  let w2 : World := { w with ssrStore := some store2 }
  let handler := (matchedRoute.map fun r => r.handler).getD .notFoundPage
  let html := env.pageHtml handler (getActiveStore w2).stateVal
  let head := "<title>" ++ generateTitle matchedRoute initialData ++ "</title>"
  (.ok ⟨html, head, initialData⟩, w2)

/-- `createSSRStore()`: builds a fresh request store and publishes it in the
process-wide slot. -/
def createSSRStore (w : World) : Store × World :=
  (createProductStore, { w with ssrStore := some createProductStore })

/-- `cleanupSSRContext()`: resets the slot to null. -/
def cleanupSSRContext (w : World) : World := { w with ssrStore := none }

/-- The scoped-acquisition skeleton of `render(url)`: acquire the request
store, run the body under `try`, and in `finally` clear the slot, whatever
the body's outcome — its result (normal or exceptional) then propagates. -/
def renderSkeleton {ε : Type} (body : Store → World → Except ε RenderResult × World)
    (w : World) : Except ε RenderResult × World :=
  let sw := createSSRStore w
  let r := body sw.1 sw.2
  (r.1, cleanupSSRContext r.2)

/-- `render(url)` of main-server.js: the skeleton applied to the concrete
body. -/
def render {ε : Type} (env : Env) (items : List Item) (url : String) (w : World) :
    Except ε RenderResult × World :=
  renderSkeleton (renderBody env items url) w

/-- The initial data carried by a successful render outcome. -/
def resultData {ε : Type} : Except ε RenderResult → Option InitialData
  | .ok r => some r.initialData
  | .error _ => none

/-- `injectSSRResult(template, rendered)` of server.js: three sequential
first-occurrence replacements — head placeholder, body placeholder, and the
serialized-state script spliced back in front of `</head>`.  The JSON text
produced by `JSON.stringify(rendered.initialData)` is the `dataJson`
argument (serialization itself is the platform's). -/
def injectSSRResult (template headMeta html dataJson : String) : String :=
  let initialDataScript :=
    "<script>window.__INITIAL_DATA__ = " ++ dataJson ++ "</script>"
  replaceFirstS
    (replaceFirstS (replaceFirstS template "<!--app-head-->" headMeta) "<!--app-html-->" html)
    "</head>" (initialDataScript ++ "</head>")

/-- The pattern `pat` has no occurrence in `pre ++ pat ++ post` starting
strictly inside `pre`; with it, the designated occurrence is the first. -/
def firstOccAt (pre pat post : List Char) : Prop :=
  ∀ j, j < pre.length → pat.isPrefixOf ((pre ++ pat ++ post).drop j) = false

instance (pre pat post : List Char) : Decidable (firstOccAt pre pat post) :=
  decidable_of_iff
    (∀ j, j < pre.length → pat.isPrefixOf ((pre ++ pat ++ post).drop j) = false) Iff.rfl

/-- A string that survives the round trip through a `:name` capture: it is
non-empty and contains neither a slash (the capture class excludes it) nor a
question mark (which would be stripped as a query separator). -/
def validPathStr (s : String) : Prop :=
  s ≠ "" ∧ ∀ c ∈ s.data, ¬ c = '/' ∧ ¬ c = '?'

instance (s : String) : Decidable (validPathStr s) :=
  decidable_of_iff (s ≠ "" ∧ ∀ c ∈ s.data, ¬ c = '/' ∧ ¬ c = '?') Iff.rfl

/-- The observable part of a match result: handler, bound parameters in
declaration order, and matched pattern. -/
def matchView (m : Option (MatchResult PageHandler)) :
    Option (PageHandler × List (String × String) × String) :=
  m.map fun r => (r.handler, r.params, r.path)

/-- A concrete environment for witnesses: zero random draws, trivial
collation, empty query parsing, empty page markup. -/
def testEnv : Env := ⟨⟨0, 0, 0⟩, fun _ _ => 0, fun _ => [], fun _ _ => ""⟩

/-- A 21-item catalog sharing one first-level category, prices ascending. -/
def items21 : List Item :=
  (List.range 21).map fun i => ⟨"p" ++ toString i, "t", "b", (i : Int), "i.jpg", "c", "d"⟩

/-- A three-item catalog whose two related products appear in the catalog in
descending price order, so the data layer's price sort reorders them. -/
def itemsOrd : List Item :=
  [⟨"x", "tx", "b", 7, "i.jpg", "c", "d"⟩,
   ⟨"a", "ta", "b", 10, "i.jpg", "c", "d"⟩,
   ⟨"b", "tb", "b", 5, "i.jpg", "c", "d"⟩]

/-- A catalog whose single product has a slash inside its id, so the detail
URL built from it never matches the detail route. -/
def itemsSlash : List Item :=
  [⟨"a/b", "t", "b", 1, "i.jpg", "c", "d"⟩]

/-- The related-products list of an initial-data object, `[]` when absent. -/
def relatedOf : InitialData → List Item
  | .detail _ rel => rel
  | _ => []

/-- The related-products list the detail prefetch computes for a found item:
the first default page (limit 20, price-ascending) of the catalog filtered to
the item's first-level category, minus the item itself. -/
def codeRelated (env : Env) (items : List Item) (idv : String) (p : Item) : List Item :=
  (mockGetProducts env.kc items
      { ProductsOpts.noOpts with category1 := some p.category1 }).products.filter
    fun q2 => ¬ some q2.productId = some idv

lemma optionOrGetD {α : Type} (a b : Option α) (d : α) : (a.or b).getD d = a.getD (b.getD d) := by
  cases a <;> rfl

lemma optionOrAssoc {α : Type} (a b c : Option α) : (a.or b).or c = a.or (b.or c) := by
  cases a <;> rfl

/-- C1: the render orchestrator follows the scoped-acquisition discipline.
Acquisition publishes a freshly created store in the process-wide slot;
for every body behaviour (normal or throwing), the skeleton hands back
exactly the body's outcome while the slot is reset to null on that very
exit path; and the concrete `render` is that skeleton applied to the
concrete pipeline body. -/
theorem render_scoped_store_cleanup (ε : Type)
    (body : Store → World → Except ε RenderResult × World) (w : World) :
    createSSRStore w = (createProductStore, { ssrStore := some createProductStore }) ∧
      renderSkeleton body w =
        ((body createProductStore { ssrStore := some createProductStore }).1,
          { ssrStore := none }) ∧
      (renderSkeleton body w).2.ssrStore = none ∧
      ∀ (env : Env) (items : List Item) (url : String) (w2 : World),
        render (ε := ε) env items url w2 = renderSkeleton (renderBody env items url) w2 :=
  ⟨rfl, rfl, rfl, fun _ _ _ _ => rfl⟩

/-- C6: the transition function implements the action table of the
specification exactly, each record update listing precisely the fields the
table touches — every unmentioned field is unchanged — and `SETUP`
shallow-merging the payload over the snapshot. -/
theorem productReducer_action_table (s : ProductState) :
    (∀ v, reducedState s (.setStatus v) = { s with status := v }) ∧
      (∀ v, reducedState s (.setCategories v) =
        { s with categories := v, loading := false, error := none, status := "done" }) ∧
      (∀ ps tc, reducedState s (.setProducts ps tc) =
        { s with products := ps, totalCount := tc, loading := false, error := none,
                 status := "done" }) ∧
      (∀ ps tc, reducedState s (.addProducts ps tc) =
        { s with products := s.products ++ ps, totalCount := tc, loading := false,
                 error := none, status := "done" }) ∧
      (∀ v, reducedState s (.setLoading v) = { s with loading := v }) ∧
      (∀ v, reducedState s (.setError v) =
        { s with error := v, loading := false, status := "done" }) ∧
      (∀ v, reducedState s (.setCurrentProduct v) =
        { s with currentProduct := v, loading := false, error := none, status := "done" }) ∧
      (∀ v, reducedState s (.setRelatedProducts v) =
        { s with relatedProducts := v, status := "done" }) ∧
      (∀ p, reducedState s (.setup p) = mergeSetup s p) :=
  ⟨fun _ => rfl, fun _ => rfl, fun _ _ => rfl, fun _ _ => rfl, fun _ => rfl,
   fun _ => rfl, fun _ => rfl, fun _ => rfl, fun _ => rfl⟩

/-- C7: an action of unrecognized kind (including the declared but unhandled
`RESET_FILTERS`) makes the reducer return the input object itself, so the
container keeps its state and fires no subscriber notification. -/
theorem dispatch_unknown_kind_noop (st : Store) (tag : String) :
    productReducer st.stateVal (.unknown tag) = .sameObject ∧
      st.dispatch (.unknown tag) = st ∧
      (st.dispatch (.unknown tag)).notifications = st.notifications ∧
      productReducer st.stateVal .resetFilters = .sameObject ∧
      st.dispatch .resetFilters = st :=
  ⟨rfl, rfl, rfl, rfl, rfl⟩

/-- C8: two successive `SETUP` dispatches coincide with a single `SETUP`
whose payload is the shallow object-merge of the two, the second payload's
keys overriding the first's. -/
theorem setup_setup_merge (s : ProductState) (p1 p2 : SetupPayload) :
    reducedState (reducedState s (.setup p1)) (.setup p2) =
      reducedState s (.setup (p1.merge p2)) := by
  show mergeSetup (mergeSetup s p1) p2 = mergeSetup s (p1.merge p2)
  simp only [mergeSetup, SetupPayload.merge, optionOrGetD, optionOrAssoc]

/-- C10: a `SETUP` dispatch always builds a fresh object — even with an empty
payload, whose merge leaves the snapshot value unchanged — so the reference
comparison in the store always sees a change and every `SETUP` dispatch
adopts the merged state and notifies subscribers. -/
theorem setup_always_notifies (s : ProductState) (p : SetupPayload) (st : Store) :
    productReducer s (.setup p) = .newObject (mergeSetup s p) ∧
      productReducer s (.setup SetupPayload.empty) = .newObject s ∧
      st.dispatch (.setup p) = ⟨mergeSetup st.stateVal p, st.notifications + 1⟩ ∧
      (st.dispatch (.setup p)).notifications = st.notifications + 1 :=
  ⟨rfl, rfl, rfl, rfl⟩

/-- C3 counterexample: the invariant holds initially and after a `SET_ERROR`
dispatch, but the reachable state so obtained is broken by a further
`SET_LOADING true` dispatch, which leaves the non-null error in place while
turning loading back on — so the invariant is not preserved by every action. -/
theorem invariant_not_preserved_counterexample :
    stateInvariant initialProductState ∧
      stateInvariant (reducedState initialProductState (.setError (some "boom"))) ∧
      ¬ stateInvariant
          (reducedState (reducedState initialProductState (.setError (some "boom")))
            (.setLoading true)) := by
  refine ⟨by decide, by decide, ?_⟩
  intro h
  exact absurd (h.2 (by decide)) (by decide)

/-- C3 amended: the snapshot invariant holds for the initial state and is
preserved by dispatching an action through the transition function provided
the action is well-behaved: status payloads drawn from the enum, and no
action switching loading on (directly or through a `SETUP` merge) while the
resulting error is non-null. -/
theorem invariant_preserved_by_safe_actions (s : ProductState) (a : ProductAction)
    (hinv : stateInvariant s) (hsafe : actionSafe s a) :
    stateInvariant initialProductState ∧ stateInvariant (reducedState s a) := by
  refine ⟨by decide, ?_⟩
  cases a with
  | setStatus v => exact ⟨hsafe, hinv.2⟩
  | setCategories v => exact ⟨Or.inr (Or.inr rfl), fun _ => rfl⟩
  | setProducts ps tc => exact ⟨Or.inr (Or.inr rfl), fun _ => rfl⟩
  | addProducts ps tc => exact ⟨Or.inr (Or.inr rfl), fun _ => rfl⟩
  | setLoading b =>
    refine ⟨hinv.1, fun he => ?_⟩
    cases b with
    | false => rfl
    | true => exact absurd (hsafe rfl) he
  | setError v => exact ⟨Or.inr (Or.inr rfl), fun _ => rfl⟩
  | setCurrentProduct v => exact ⟨Or.inr (Or.inr rfl), fun _ => rfl⟩
  | setRelatedProducts v => exact ⟨Or.inr (Or.inr rfl), hinv.2⟩
  | setup p => exact hsafe
  | resetFilters => exact hinv
  | unknown tag => exact hinv

/-- C3 witness: the amended preservation theorem applied to the initial state
and a concrete safe action. -/
theorem invariant_preserved_witness :
    stateInvariant initialProductState ∧
      stateInvariant (reducedState initialProductState (.setStatus "pending")) :=
  invariant_preserved_by_safe_actions initialProductState (.setStatus "pending")
    (by decide) (by decide)

lemma notSlash_slash : notSlash '/' = false := by decide

lemma takeWhile_append_stop {p : Char → Bool} {x : Char} (hx : p x = false) :
    ∀ (l1 l2 : List Char), (∀ c ∈ l1, p c = true) → (l1 ++ x :: l2).takeWhile p = l1 := by
  intro l1 l2 h
  induction l1 with
  | nil => simp [List.takeWhile_cons, hx]
  | cons a t ih =>
    have ha : p a = true := h a (by simp)
    simp only [List.cons_append, List.takeWhile_cons, ha, if_true]
    rw [ih fun c hc => h c (by simp [hc])]

lemma takeWhile_all {p : Char → Bool} :
    ∀ (l : List Char), (∀ c ∈ l, p c = true) → l.takeWhile p = l := by
  intro l h
  induction l with
  | nil => rfl
  | cons a t ih =>
    have ha : p a = true := h a (by simp)
    simp only [List.takeWhile_cons, ha, if_true]
    rw [ih fun c hc => h c (by simp [hc])]

lemma matchParam_slash (n : String) (f : Nat) (s : List Char) (h1 : s ≠ [])
    (h2 : ∀ c ∈ s, notSlash c = true) :
    matchToksF (f + 3) [Tok.param n, Tok.lit '/'] (s ++ ['/']) = some [⟨s⟩] := by
  cases s with
  | nil => exact absurd rfl h1
  | cons a t =>
    have htw : ((a :: t) ++ ['/']).takeWhile notSlash = a :: t :=
      takeWhile_append_stop notSlash_slash (a :: t) [] h2
    have hd : ((a :: t) ++ ['/']).drop (t.length + 1) = ['/'] := List.drop_left' (by simp)
    have ht : ((a :: t) ++ ['/']).take (t.length + 1) = a :: t := List.take_left' (by simp)
    have hlen : (a :: t).length = t.length + 1 := by simp
    simp only [matchToksF, htw, hlen, descLens, List.findSome?_cons, hd, ht]
    rfl

lemma homeToks_no_match (rest : List Char) (h : rest ≠ []) :
    matchToks homeToks ('/' :: rest) = none := by
  cases rest with
  | nil => exact absurd rfl h
  | cons a t => rfl

lemma createServerRouter_routes :
    createServerRouter.routes =
      [("/", ⟨homeToks, [], .homePage⟩),
       ("/product/:id/", ⟨detailToks, ["id"], .productDetailPage⟩)] := by decide

lemma matchRoutes_detail (s : List Char) (h1 : s ≠ []) (h2 : ∀ c ∈ s, notSlash c = true) :
    matchRoutes createServerRouter.routes
        ('/' :: 'p' :: 'r' :: 'o' :: 'd' :: 'u' :: 'c' :: 't' :: '/' :: (s ++ ['/'])) =
      some ⟨detailToks, ["id"], .productDetailPage, [("id", ⟨s⟩)], "/product/:id/"⟩ := by
  rw [createServerRouter_routes]
  have hfail : matchToks homeToks
      ('/' :: 'p' :: 'r' :: 'o' :: 'd' :: 'u' :: 'c' :: 't' :: '/' :: (s ++ ['/'])) = none :=
    homeToks_no_match _ (by simp)
  have hhit : matchToks detailToks
      ('/' :: 'p' :: 'r' :: 'o' :: 'd' :: 'u' :: 'c' :: 't' :: '/' :: (s ++ ['/'])) =
        some [⟨s⟩] := by
    show matchToksF 12 detailToks _ = _
    rw [show matchToksF 12 detailToks
        ('/' :: 'p' :: 'r' :: 'o' :: 'd' :: 'u' :: 'c' :: 't' :: '/' :: (s ++ ['/'])) =
        matchToksF 3 [Tok.param "id", Tok.lit '/'] (s ++ ['/']) from rfl]
    exact matchParam_slash "id" 0 s h1 h2
  simp only [matchRoutes, hfail, hhit]
  rfl

lemma string_data_ne {s : String} (h : s ≠ "") : s.data ≠ [] := by
  intro hd
  apply h
  cases s
  simp_all

lemma detail_pathname (s : List Char) (hnq : ∀ c ∈ s, notQuestion c = true) :
    stripQuery ('/' :: 'p' :: 'r' :: 'o' :: 'd' :: 'u' :: 'c' :: 't' :: '/' :: (s ++ ['/'])) =
      '/' :: 'p' :: 'r' :: 'o' :: 'd' :: 'u' :: 'c' :: 't' :: '/' :: (s ++ ['/']) := by
  apply takeWhile_all
  intro c hc
  simp only [List.mem_cons, List.mem_append, List.mem_singleton, List.not_mem_nil,
    or_false] at hc
  rcases hc with h | h | h | h | h | h | h | h | h | h | h
  all_goals first
    | (subst h; decide)
    | exact hnq c h

lemma detail_pathname_query (s q : List Char) (hnq : ∀ c ∈ s, notQuestion c = true) :
    stripQuery
        ('/' :: 'p' :: 'r' :: 'o' :: 'd' :: 'u' :: 'c' :: 't' :: '/' :: (s ++ '/' :: '?' :: q)) =
      '/' :: 'p' :: 'r' :: 'o' :: 'd' :: 'u' :: 'c' :: 't' :: '/' :: (s ++ ['/']) := by
  have key := takeWhile_append_stop (p := notQuestion) (x := '?') (by decide)
    ('/' :: 'p' :: 'r' :: 'o' :: 'd' :: 'u' :: 'c' :: 't' :: '/' :: (s ++ ['/'])) q
    (by
      intro c hc
      simp only [List.mem_cons, List.mem_append, List.mem_singleton, List.not_mem_nil,
        or_false] at hc
      rcases hc with h | h | h | h | h | h | h | h | h | h | h
      all_goals first
        | (subst h; decide)
        | exact hnq c h)
  simpa [stripQuery, List.append_assoc] using key

lemma serverMatch_detail_url (s : String) (hs : s ≠ "")
    (hchars : ∀ c ∈ s.data, ¬ c = '/' ∧ ¬ c = '?') :
    createServerRouter.match ("/product/" ++ s ++ "/") =
      some ⟨detailToks, ["id"], PageHandler.productDetailPage, [("id", s)], "/product/:id/"⟩ := by
  have hsd : s.data ≠ [] := string_data_ne hs
  have hns : ∀ c ∈ s.data, notSlash c = true := fun c hc => by
    simp [notSlash, (hchars c hc).1]
  have hnq : ∀ c ∈ s.data, notQuestion c = true := fun c hc => by
    simp [notQuestion, (hchars c hc).2]
  have hdata : ("/product/" ++ s ++ "/").data =
      '/' :: 'p' :: 'r' :: 'o' :: 'd' :: 'u' :: 'c' :: 't' :: '/' :: (s.data ++ ['/']) := by
    simp [String.data_append]
  show matchRoutes createServerRouter.routes (stripQuery ("/product/" ++ s ++ "/").data) = _
  rw [hdata, detail_pathname s.data hnq, matchRoutes_detail s.data hsd hns]

/-- C2 counterexample: the claim quantifies over arbitrary non-slash
substitutions, but substituting the empty string (the capture group requires
at least one character) or a string containing a question mark (stripped as a
query separator) makes the built URL match nothing at all, instead of
returning parameters reconstructing the substitution. -/
theorem route_match_counterexample :
    createServerRouter.match "/product//" = none ∧
      createServerRouter.match "/product/a?b/" = none := by decide

/-- C2 amended: for the two registered route patterns, substituting any
non-empty string free of slashes and question marks for the `:id`
placeholder (optionally followed by a query string, which is stripped)
yields a match whose parameters bind the declared names, in declaration
order, to exactly the substituted string; and a URL matched by neither
registered pattern yields the not-found sentinel `none`. -/
theorem route_match_reconstructs_params (s q url : String) (hs : s ≠ "")
    (hchars : ∀ c ∈ s.data, ¬ c = '/' ∧ ¬ c = '?')
    (hnm1 : matchToks homeToks (stripQuery url.data) = none)
    (hnm2 : matchToks detailToks (stripQuery url.data) = none) :
    matchView (createServerRouter.match ("/product/" ++ s ++ "/")) =
        some (.productDetailPage, [("id", s)], "/product/:id/") ∧
      matchView (createServerRouter.match ("/product/" ++ s ++ "/?" ++ q)) =
        some (.productDetailPage, [("id", s)], "/product/:id/") ∧
      matchView (createServerRouter.match "/") = some (.homePage, [], "/") ∧
      matchView (createServerRouter.match ("/?" ++ q)) = some (.homePage, [], "/") ∧
      createServerRouter.match url = none := by
  have hsd : s.data ≠ [] := string_data_ne hs
  have hns : ∀ c ∈ s.data, notSlash c = true := fun c hc => by
    simp [notSlash, (hchars c hc).1]
  have hnq : ∀ c ∈ s.data, notQuestion c = true := fun c hc => by
    simp [notQuestion, (hchars c hc).2]
  refine ⟨?_, ?_, by decide, ?_, ?_⟩
  · rw [serverMatch_detail_url s hs hchars]
    rfl
  · have hdata : ("/product/" ++ s ++ "/?" ++ q).data =
        '/' :: 'p' :: 'r' :: 'o' :: 'd' :: 'u' :: 'c' :: 't' :: '/' ::
          (s.data ++ '/' :: '?' :: q.data) := by
      simp [String.data_append]
    simp only [ServerRouter.match, hdata, detail_pathname_query s.data q.data hnq,
      matchRoutes_detail s.data hsd hns]
    rfl
  · have hdata : ("/?" ++ q).data = '/' :: '?' :: q.data := by
      simp [String.data_append]
    simp only [ServerRouter.match, hdata]
    rfl
  · rw [show createServerRouter.match url =
        matchRoutes createServerRouter.routes (stripQuery url.data) from rfl,
      createServerRouter_routes]
    simp only [matchRoutes, hnm1, hnm2]

/-- C2 witness: the amended theorem at the substitution `"123"`, the query
`"a=1"`, and the unmatched URL `"/nope"`. -/
theorem route_match_witness :
    matchView (createServerRouter.match ("/product/" ++ "123" ++ "/")) =
        some (.productDetailPage, [("id", "123")], "/product/:id/") ∧
      matchView (createServerRouter.match ("/product/" ++ "123" ++ "/?" ++ "a=1")) =
        some (.productDetailPage, [("id", "123")], "/product/:id/") ∧
      matchView (createServerRouter.match "/") = some (.homePage, [], "/") ∧
      matchView (createServerRouter.match ("/?" ++ "a=1")) = some (.homePage, [], "/") ∧
      createServerRouter.match "/nope" = none :=
  route_match_reconstructs_params "123" "a=1" "/nope" (by decide) (by decide)
    (by decide) (by decide)

lemma isPrefixOf_append_self : ∀ (l t : List Char), l.isPrefixOf (l ++ t) = true := by
  intro l t
  induction l with
  | nil => simp [List.isPrefixOf]
  | cons a l ih => simp [List.isPrefixOf, ih]

lemma getSubstitution_no_dollar (matched before after : List Char) :
    ∀ (rep : List Char), '$' ∉ rep → getSubstitution matched before after rep = rep := by
  intro rep
  induction rep with
  | nil => intro _; rfl
  | cons c rest ih =>
    intro h
    have hc : ¬ c = '$' := by
      intro he
      exact h (by simp [he])
    have hr : '$' ∉ rest := fun hm => h (List.mem_cons_of_mem c hm)
    cases rest with
    | nil => rfl
    | cons d rest2 =>
      rw [getSubstitution, if_neg hc]
      rw [ih hr]

lemma splitFirst_at (pre pat post : List Char) (hpat : pat ≠ [])
    (hfirst : firstOccAt pre pat post) :
    splitFirst (pre ++ pat ++ post) pat = some (pre, post) := by
  induction pre with
  | nil =>
    cases pat with
    | nil => exact absurd rfl hpat
    | cons c cs =>
      simp only [List.nil_append, List.cons_append]
      rw [splitFirst]
      rw [show (c :: (cs ++ post)) = (c :: cs) ++ post from rfl]
      rw [isPrefixOf_append_self]
      simp [List.drop_left]
  | cons a pre ih =>
    have h0 : pat.isPrefixOf ((a :: pre ++ pat ++ post).drop 0) = false :=
      hfirst 0 (by simp)
    simp only [List.drop_zero] at h0
    simp only [List.cons_append]
    rw [splitFirst]
    simp only [List.cons_append] at h0
    rw [h0]
    simp only [if_false, Bool.false_eq_true]
    rw [ih fun j hj => by
      have := hfirst (j + 1) (by simpa using Nat.succ_lt_succ hj)
      simpa using this]

lemma replaceFirst_at (pre pat post rep : List Char) (hpat : pat ≠ [])
    (hrep : '$' ∉ rep) (hfirst : firstOccAt pre pat post) :
    replaceFirst (pre ++ pat ++ post) pat rep = pre ++ rep ++ post := by
  rw [replaceFirst, splitFirst_at pre pat post hpat hfirst]
  show pre ++ getSubstitution pat pre post rep ++ post = pre ++ rep ++ post
  rw [getSubstitution_no_dollar pat pre post rep hrep]

lemma replaceFirst_eq (l pre pat post rep : List Char) (hl : l = pre ++ pat ++ post)
    (hpat : pat ≠ []) (hrep : '$' ∉ rep) (hfirst : firstOccAt pre pat post) :
    replaceFirst l pat rep = pre ++ rep ++ post := by
  rw [hl]
  exact replaceFirst_at pre pat post rep hpat hrep hfirst

/-- C9 counterexample: with a head-metadata value that itself contains a
closing head tag, the serialized-state script lands inside the injected head
metadata rather than immediately before the template's own closing head tag,
and the template region before that tag is altered — refuting the claim for
arbitrary render results. -/
theorem inject_counterexample :
    injectSSRResult "A<!--app-head-->B</head>C<!--app-html-->D" "</head>" "M" "null" =
        "A<script>window.__INITIAL_DATA__ = null</script></head>B</head>CMD" ∧
      injectSSRResult "A<!--app-head-->B</head>C<!--app-html-->D" "</head>" "M" "null" ≠
        "A</head>B<script>window.__INITIAL_DATA__ = null</script></head>CMD" := by decide

/-- C9 amended: whenever each placeholder's designated occurrence is the first
occurrence of its marker at every substitution stage, and the injected head
metadata, markup and JSON text contain no dollar sign (whose `$`-patterns
`String.replace` would otherwise expand in the replacement), the composed
document is the template with the head placeholder replaced by the head
metadata, the body placeholder replaced by the markup, and the inline
serialized-state script inserted immediately before the closing head tag,
the rest of the template unchanged. -/
theorem inject_template_substitution (t1 t2 t3 t4 headMeta html dataJson : String)
    (hd1 : '$' ∉ headMeta.data) (hd2 : '$' ∉ html.data) (hd3 : '$' ∉ dataJson.data)
    (h1 : firstOccAt t1.data ("<!--app-head-->").data
        (t2.data ++ ("</head>").data ++ t3.data ++ ("<!--app-html-->").data ++ t4.data))
    (h2 : firstOccAt (t1.data ++ headMeta.data ++ t2.data ++ ("</head>").data ++ t3.data)
        ("<!--app-html-->").data t4.data)
    (h3 : firstOccAt (t1.data ++ headMeta.data ++ t2.data) ("</head>").data
        (t3.data ++ html.data ++ t4.data)) :
    injectSSRResult (t1 ++ "<!--app-head-->" ++ t2 ++ "</head>" ++ t3 ++ "<!--app-html-->" ++ t4)
        headMeta html dataJson =
      t1 ++ headMeta ++ t2 ++
        ("<script>window.__INITIAL_DATA__ = " ++ dataJson ++ "</script>") ++ "</head>" ++
        t3 ++ html ++ t4 := by
  have hscript : '$' ∉ ("<script>window.__INITIAL_DATA__ = ").data ++ dataJson.data ++
      ("</script>").data ++ ("</head>").data := by
    intro hm
    simp only [List.mem_append] at hm
    rcases hm with ((h | h) | h) | h
    · exact absurd h (by decide)
    · exact hd3 h
    · exact absurd h (by decide)
    · exact absurd h (by decide)
  refine String.ext ?_
  simp only [injectSSRResult, replaceFirstS, String.data_append]
  rw [replaceFirst_eq _ t1.data ("<!--app-head-->").data
    (t2.data ++ ("</head>").data ++ t3.data ++ ("<!--app-html-->").data ++ t4.data)
    headMeta.data (by simp) (by decide) hd1 h1]
  rw [replaceFirst_eq _
    (t1.data ++ headMeta.data ++ t2.data ++ ("</head>").data ++ t3.data)
    ("<!--app-html-->").data t4.data html.data (by simp) (by decide) hd2 h2]
  rw [replaceFirst_eq _ (t1.data ++ headMeta.data ++ t2.data) ("</head>").data
    (t3.data ++ html.data ++ t4.data) _ (by simp) (by decide) hscript h3]
  simp

/-- C9 witness: the amended theorem at a concrete well-formed template and
benign substitutions. -/
theorem inject_template_witness :
    injectSSRResult ("<html><head>" ++ "<!--app-head-->" ++ "<x>" ++ "</head>" ++ "<body>" ++
        "<!--app-html-->" ++ "</body></html>") "<title>T</title>" "<b>hi</b>" "null" =
      "<html><head>" ++ "<title>T</title>" ++ "<x>" ++
        ("<script>window.__INITIAL_DATA__ = " ++ "null" ++ "</script>") ++ "</head>" ++
        "<body>" ++ "<b>hi</b>" ++ "</body></html>" :=
  inject_template_substitution "<html><head>" "<x>" "<body>" "</body></html>"
    "<title>T</title>" "<b>hi</b>" "null" (by decide) (by decide) (by decide)
    (by decide) (by decide) (by decide)

lemma insertStable_perm {α : Type} (le : α → α → Bool) (a : α) (l : List α) :
    (insertStable le a l).Perm (a :: l) := by
  induction l with
  | nil => exact List.Perm.refl _
  | cons b t ih =>
    by_cases h : le b a = true
    · rw [insertStable, if_pos h]
      exact (ih.cons b).trans (List.Perm.swap a b t)
    · rw [insertStable, if_neg h]

lemma foldl_insertStable_perm {α : Type} (le : α → α → Bool) :
    ∀ (l acc : List α),
      (l.foldl (fun acc a => insertStable le a acc) acc).Perm (l ++ acc) := by
  intro l
  induction l with
  | nil => intro acc; exact List.Perm.refl _
  | cons a t ih =>
    intro acc
    show (t.foldl (fun acc a => insertStable le a acc) (insertStable le a acc)).Perm
      (a :: (t ++ acc))
    exact (ih _).trans
      ((List.Perm.append_left t (insertStable_perm le a acc)).trans List.perm_middle)

lemma jsSortStable_perm {α : Type} (le : α → α → Bool) (l : List α) :
    (jsSortStable le l).Perm l := by
  simpa using foldl_insertStable_perm le l []

lemma jsSortStable_length {α : Type} (le : α → α → Bool) (l : List α) :
    (jsSortStable le l).length = l.length :=
  (jsSortStable_perm le l).length_eq

lemma jsSlice_full {α : Type} (l : List α) (s e : Int) (hs : s = 0)
    (he : (l.length : Int) ≤ e) : jsSlice l s e = l := by
  subst hs
  unfold jsSlice
  have hlen0 : (0 : Int) ≤ (l.length : Int) := by positivity
  have hn0 : ¬ ((0 : Int) < 0) := by omega
  have he0 : ¬ (e < 0) := by omega
  have hmin0 : min (0 : Int) (l.length : Int) = 0 := min_eq_left hlen0
  have hmine : min e (l.length : Int) = (l.length : Int) := min_eq_right he
  simp only [if_neg hn0, if_neg he0, hmin0, hmine]
  simp

lemma filterProducts_cat1 (kc : String → String → Int) (items : List Item) (c1 : String)
    (hc : ¬ c1 = "") :
    filterProducts kc items "" c1 "" "price_asc" =
      jsSortStable (fun a b => a.lprice ≤ b.lprice) (items.filter fun it => it.category1 = c1) := by
  have hemp : ¬ (("" : String) ≠ "") := by simp
  have hpa : ("price_asc" : String) ≠ "" := by simp
  simp only [filterProducts, if_neg hemp, if_pos hc, if_pos hpa, if_pos rfl, if_true]

lemma mockGetProducts_cat1 (kc : String → String → Int) (items : List Item) (c1 : String)
    (hc : ¬ c1 = "")
    (hne : items.filter (fun it => it.category1 = c1) ≠ [])
    (hlen : (items.filter fun it => it.category1 = c1).length ≤ 20) :
    (mockGetProducts kc items { ProductsOpts.noOpts with category1 := some c1 }).products =
      jsSortStable (fun a b => a.lprice ≤ b.lprice) (items.filter fun it => it.category1 = c1) := by
  have hlenS : (jsSortStable (fun a b : Item => a.lprice ≤ b.lprice)
      (items.filter fun it => it.category1 = c1)).length =
        (items.filter fun it => it.category1 = c1).length :=
    jsSortStable_length _ _
  have hpos : 1 ≤ (items.filter fun it => it.category1 = c1).length :=
    List.length_pos.2 hne
  have htp : (¬ ((20 : Nat) = 0)) := by decide
  simp only [mockGetProducts, ProductsOpts.noOpts, Option.getD_none, Option.getD_some,
    filterProducts_cat1 kc items c1 hc, if_neg htp, hlenS]
  have hdiv : ((items.filter fun it => it.category1 = c1).length + 20 - 1) / 20 = 1 := by
    omega
  rw [hdiv]
  have hcp : min (max (1 : Int) 1) ((1 : Nat) : Int) = 1 := by norm_num
  rw [hcp]
  rw [jsSlice_full _ _ _ (by ring) (by push_cast; omega)]

lemma prefetch_detail_found (env : Env) (items : List Item) (idv : String) (p : Item)
    (qy : List (String × String))
    (hfind : (items.find? fun it => some it.productId = some idv) = some p) :
    prefetchData env items "/product/:id/" [("id", idv)] qy =
      .detail (enrichProduct env.rand p) (codeRelated env items idv p) := by
  have hnr : ¬ (("/product/:id/" : String) = "/") := by decide
  have hlk : (([("id", idv)] : List (String × String)).lookup "id") = some idv := by
    simp [List.lookup]
  simp only [prefetchData, if_neg hnr, if_pos rfl, hlk, mockGetProduct, hfind,
    Option.map_some']
  rfl

lemma prefetch_detail_missing (env : Env) (items : List Item) (idv : String)
    (qy : List (String × String))
    (hnot : (items.find? fun it => some it.productId = some idv) = none) :
    prefetchData env items "/product/:id/" [("id", idv)] qy =
      .notFound "상품을 찾을 수 없습니다" := by
  have hnr : ¬ (("/product/:id/" : String) = "/") := by decide
  have hlk : (([("id", idv)] : List (String × String)).lookup "id") = some idv := by
    simp [List.lookup]
  simp only [prefetchData, if_neg hnr, if_pos rfl, hlk, mockGetProduct, hnot,
    Option.map_none', if_true]

lemma render_detail_ok (env : Env) (items : List Item) (s : String) (hs : s ≠ "")
    (hchars : ∀ c ∈ s.data, ¬ c = '/' ∧ ¬ c = '?') (w : World) :
    ((render env items ("/product/" ++ s ++ "/") w : Except Unit RenderResult × World)).1 =
      .ok ⟨env.pageHtml PageHandler.productDetailPage
            (mergeSetup initialProductState
              (prefetchData env items "/product/:id/" [("id", s)] []).toPayload),
          "<title>" ++
            generateTitle
              (some ⟨detailToks, ["id"], PageHandler.productDetailPage, [("id", s)],
                "/product/:id/"⟩)
              (prefetchData env items "/product/:id/" [("id", s)] []) ++ "</title>",
          prefetchData env items "/product/:id/" [("id", s)] []⟩ := by
  have hm := serverMatch_detail_url s hs hchars
  show (renderBody env items ("/product/" ++ s ++ "/") createProductStore
      { ssrStore := some createProductStore }).1 = _
  simp only [renderBody, hm]
  rfl

/-- C5 counterexample: for the absent id `"a/b"` (a string is a legitimate id
value), the built detail URL does not match the detail route at all, so the
render returns the empty initial-data object instead of the not-found error
object. -/
theorem notfound_render_counterexample :
    resultData ((render testEnv itemsOrd "/product/a/b/" ⟨none⟩ :
        Except Unit RenderResult × World)).1 = some .empty ∧
      (InitialData.empty : InitialData) ≠ .notFound "상품을 찾을 수 없습니다" := by decide

/-- C5 amended: for every id absent from the catalog, the detail prefetch
returns exactly the bare error object (no loading flag, no `currentProduct`
key), and — provided the id is non-empty and free of slash and question mark,
so that the detail URL matches — `render` returns that object as the initial
data through a normal (non-exceptional) result. -/
theorem notfound_as_data (env : Env) (items : List Item) (idv : String)
    (qy : List (String × String)) (w : World)
    (hnot : (items.find? fun it => some it.productId = some idv) = none)
    (hvalid : validPathStr idv) :
    prefetchData env items "/product/:id/" [("id", idv)] qy =
        .notFound "상품을 찾을 수 없습니다" ∧
      (prefetchData env items "/product/:id/" [("id", idv)] qy).currentProductKey = none ∧
      ∃ r : RenderResult,
        ((render env items ("/product/" ++ idv ++ "/") w :
            Except Unit RenderResult × World)).1 = .ok r ∧
          r.initialData = .notFound "상품을 찾을 수 없습니다" := by
  have h1 := prefetch_detail_missing env items idv qy hnot
  have h1' := prefetch_detail_missing env items idv [] hnot
  refine ⟨h1, by rw [h1]; rfl, ?_⟩
  exact ⟨_, render_detail_ok env items idv hvalid.1 hvalid.2 w, by simp [h1']⟩

/-- C5 witness: the amended theorem at a concrete catalog and the absent
id `"zzz"`. -/
theorem notfound_as_data_witness :
    prefetchData testEnv itemsOrd "/product/:id/" [("id", "zzz")] [] =
      .notFound "상품을 찾을 수 없습니다" :=
  (notfound_as_data testEnv itemsOrd "zzz" [] ⟨none⟩ (by decide) (by decide)).1

/-- C4 counterexample: the data layer does cap and reorder the related list.
With 21 products sharing one category, the prefetched list keeps only 19 of
the 20 other products (first page of 20, minus the product itself); with a
catalog whose prices are out of order, the list is price-sorted rather than
in catalog order; and for an existing product whose id contains a slash, the
render returns empty initial data instead of the product. -/
theorem related_products_counterexample :
    (relatedOf (prefetchData testEnv items21 "/product/:id/" [("id", "p0")] [])).length = 19 ∧
      (items21.filter fun it => it.category1 = "c" ∧ ¬ it.productId = "p0").length = 20 ∧
      relatedOf (prefetchData testEnv items21 "/product/:id/" [("id", "p0")] []) ≠
        items21.filter (fun it => it.category1 = "c" ∧ ¬ it.productId = "p0") ∧
      relatedOf (prefetchData testEnv itemsOrd "/product/:id/" [("id", "x")] []) ≠
        itemsOrd.filter (fun it => it.category1 = "c" ∧ ¬ it.productId = "x") ∧
      resultData ((render testEnv itemsSlash "/product/a/b/" ⟨none⟩ :
        Except Unit RenderResult × World)).1 = some .empty := by decide

/-- C4 amended: for a found product, the detail prefetch returns it as
`currentProduct` (with the looked-up id) together with a related list equal
to the first default page — limit 20, price-ascending, applied by the data
layer's `mockGetProducts` defaults — of the products sharing its first-level
category, excluding the product itself; the list never contains the looked-up
id, and when at most 20 products share the category it is a permutation of
all products sharing the category minus the product itself.  With a path-safe
id, `render` returns exactly this object as the initial data. -/
theorem related_products_detail (env : Env) (items : List Item) (idv : String) (p : Item)
    (qy : List (String × String)) (w : World)
    (hfind : (items.find? fun it => some it.productId = some idv) = some p)
    (hcat : ¬ p.category1 = "")
    (hlen : (items.filter fun it => it.category1 = p.category1).length ≤ 20)
    (hvalid : validPathStr idv) :
    prefetchData env items "/product/:id/" [("id", idv)] qy =
        .detail (enrichProduct env.rand p) (codeRelated env items idv p) ∧
      (enrichProduct env.rand p).base.productId = idv ∧
      (∀ r ∈ codeRelated env items idv p, ¬ r.productId = idv) ∧
      (codeRelated env items idv p).Perm
        (items.filter fun q2 => q2.category1 = p.category1 ∧ ¬ q2.productId = idv) ∧
      ∃ r : RenderResult,
        ((render env items ("/product/" ++ idv ++ "/") w :
            Except Unit RenderResult × World)).1 = .ok r ∧
          r.initialData = .detail (enrichProduct env.rand p) (codeRelated env items idv p) := by
  have hpid : p.productId = idv := by
    have h := List.find?_some hfind
    have h2 : some p.productId = some idv := of_decide_eq_true h
    exact Option.some.inj h2
  have hmem : p ∈ items := List.mem_of_find?_eq_some hfind
  have hne : items.filter (fun it => it.category1 = p.category1) ≠ [] := by
    apply List.ne_nil_of_mem (a := p)
    exact List.mem_filter.2 ⟨hmem, by simp⟩
  refine ⟨prefetch_detail_found env items idv p qy hfind, ?_, ?_, ?_, ?_⟩
  · exact hpid
  · intro r hr
    have h := (List.mem_filter.1 hr).2
    have h2 : ¬ some r.productId = some idv := of_decide_eq_true h
    intro heq
    exact h2 (by rw [heq])
  · have hff : (items.filter fun it => it.category1 = p.category1).filter
        (fun q2 => ¬ some q2.productId = some idv) =
          items.filter fun q2 => q2.category1 = p.category1 ∧ ¬ q2.productId = idv := by
      rw [List.filter_filter]
      apply List.filter_congr
      intro a _
      by_cases h1 : a.category1 = p.category1 <;> by_cases h2 : a.productId = idv <;>
        simp [h1, h2]
    have hperm : (codeRelated env items idv p).Perm
        ((items.filter fun it => it.category1 = p.category1).filter
          (fun q2 => ¬ some q2.productId = some idv)) := by
      rw [codeRelated, mockGetProducts_cat1 env.kc items p.category1 hcat hne hlen]
      exact (jsSortStable_perm _ _).filter _
    exact hff ▸ hperm
  · exact ⟨_, render_detail_ok env items idv hvalid.1 hvalid.2 w,
      by simp [prefetch_detail_found env items idv p [] hfind]⟩

/-- C4 witness: the amended theorem at a concrete catalog, looking up the
existing product `"x"`. -/
theorem related_products_witness :
    prefetchData testEnv itemsOrd "/product/:id/" [("id", "x")] [] =
        .detail (enrichProduct testEnv.rand ⟨"x", "tx", "b", 7, "i.jpg", "c", "d"⟩)
          (codeRelated testEnv itemsOrd "x" ⟨"x", "tx", "b", 7, "i.jpg", "c", "d"⟩) ∧
      (enrichProduct testEnv.rand ⟨"x", "tx", "b", 7, "i.jpg", "c", "d"⟩).base.productId =
        "x" :=
  ⟨(related_products_detail testEnv itemsOrd "x" ⟨"x", "tx", "b", 7, "i.jpg", "c", "d"⟩ []
      ⟨none⟩ (by decide) (by decide) (by decide) (by decide)).1,
   (related_products_detail testEnv itemsOrd "x" ⟨"x", "tx", "b", 7, "i.jpg", "c", "d"⟩ []
      ⟨none⟩ (by decide) (by decide) (by decide) (by decide)).2.1⟩
